import Mathlib

/-!
Verification development for the ai-trade-bot-v2 repository.

The definitions below are a shallow embedding of the core pipeline in
`streamlit/app.py`: the Indicator Engine (`compute_indicators`), the Trend
Classifier (`classify_trend`), the Signal Generator (`generate_signal_row`)
and the Momentum Backtester (`simple_backtest_momentum`).

Modelling conventions:
- Prices are rationals (`ℚ`); a float value that can be NaN is `Option ℚ`,
  with `none` playing the role of NaN.
- IEEE comparisons against NaN are false; the helpers `oLE`/`oLT` below
  return `false` whenever either side is `none`, mirroring that.
- Python's `round` (banker's rounding to `d` decimal places) is `pyRound`;
  Python's `int()` (truncation toward zero) is `pyInt`.
-/

set_option maxRecDepth 10000

/-- One OHLCV bar of a price series (a row of the downloaded dataframe).
The `open` column is named `open_` because `open` is a Lean keyword. -/
structure Bar where
  open_ : ℚ
  high : ℚ
  low : ℚ
  close : ℚ
  volume : ℚ
deriving DecidableEq

def defaultBar : Bar := ⟨0, 0, 0, 0, 0⟩

/-- A bar extended with the derived indicator columns added by
`compute_indicators`.  Each derived column is `Option ℚ`: `none` models the
NaN cells that pandas produces before a rolling window is full. -/
structure IndicatorRow where
  open_ : ℚ
  high : ℚ
  low : ℚ
  close : ℚ
  volume : ℚ
  sma20 : Option ℚ
  sma50 : Option ℚ
  sma200 : Option ℚ
  rsi14 : Option ℚ
  atr14 : Option ℚ
  vol_ma20 : Option ℚ
deriving DecidableEq

def defaultIndicatorRow : IndicatorRow :=
  ⟨0, 0, 0, 0, 0, none, none, none, none, none, none⟩

/-- pandas `Series.rolling(w).mean()` evaluated at position `i` of `xs`
(with the default `min_periods = w`): NaN (`none`) until the window is
full, i.e. for `i < w - 1`, and the arithmetic mean of `xs[i-w+1..i]`
afterwards.  Callers only use `i < xs.length`. -/
def rollingMean (w : ℕ) (xs : List ℚ) (i : ℕ) : Option ℚ :=
  if i + 1 < w then none
  else some (((xs.drop (i + 1 - w)).take w).sum / (w : ℚ))

/-- `df["close"].diff()` at position `i`: NaN at the first row. -/
def diffAt (xs : List ℚ) (i : ℕ) : Option ℚ :=
  if i = 0 then none else some (xs.getD i 0 - xs.getD (i - 1) 0)

/-- `gain = np.where(delta > 0, delta, 0)`.  Note that `NaN > 0` is false,
so the NaN first delta is mapped to `0`, not propagated. -/
def gainList (xs : List ℚ) : List ℚ :=
  (List.range xs.length).map (fun i =>
    match diffAt xs i with
    | some d => if 0 < d then d else 0
    | none => 0)

/-- `loss = np.where(delta < 0, -delta, 0)`, with the same NaN-to-0 rule. -/
def lossList (xs : List ℚ) : List ℚ :=
  (List.range xs.length).map (fun i =>
    match diffAt xs i with
    | some d => if d < 0 then -d else 0
    | none => 0)

/-- True range per bar:
`tr = pd.concat([high_low, high_close, low_close], axis=1).max(axis=1)`.
`DataFrame.max` skips NaN, so at the first row (where the prev-close
columns are NaN) the max is just `high - low`. -/
def trList (df : List Bar) : List ℚ :=
  (List.range df.length).map (fun i =>
    let b := df.getD i defaultBar
    if i = 0 then b.high - b.low
    else
      let pc := (df.getD (i - 1) defaultBar).close
      max (b.high - b.low) (max |b.high - pc| |b.low - pc|))

/-- The indicator row produced for position `i` of the series `df`
(the body of `compute_indicators` for one row). -/
def mkIndicatorRow (df : List Bar) (i : ℕ) : IndicatorRow :=
  let closes := df.map (·.close)
  let vols := df.map (·.volume)
  let ru := rollingMean 14 (gainList closes) i
  let rd := rollingMean 14 (lossList closes) i
  -- rs = roll_up / (roll_down + 1e-9); NaN propagates through / and +
  let rs : Option ℚ :=
    match ru, rd with
    | some u, some d => some (u / (d + 1e-9))
    | _, _ => none
  let b := df.getD i defaultBar
  { open_ := b.open_, high := b.high, low := b.low, close := b.close,
    volume := b.volume,
    sma20 := rollingMean 20 closes i,
    sma50 := rollingMean 50 closes i,
    sma200 := rollingMean 200 closes i,
    -- rsi = 100.0 - (100.0 / (1.0 + rs))
    rsi14 := rs.map (fun r => 100 - 100 / (1 + r)),
    atr14 := rollingMean 14 (trList df) i,
    vol_ma20 := rollingMean 20 vols i }

/-- `compute_indicators` from `streamlit/app.py`: adds SMAs, RSI14, ATR14
and the volume average to every row.  On an empty series it returns an
empty result (the `if df.empty` early return). -/
def compute_indicators (df : List Bar) : List IndicatorRow :=
  (List.range df.length).map (mkIndicatorRow df)

/-- The six trend labels returned (as strings) by `classify_trend`. -/
inductive TrendLabel where
  | strongUptrend        -- "Strong Uptrend"
  | uptrend              -- "Uptrend"
  | strongDowntrend      -- "Strong Downtrend"
  | downtrend            -- "Downtrend"
  | sidewaysMixed        -- "Sideways / Mixed"
  | insufficientData     -- "No Trend (insufficient data)"
deriving DecidableEq

/-- `classify_trend` from `streamlit/app.py`.  Python's chained comparison
`a > b > c > d` is the conjunction of the pairwise comparisons. -/
def classify_trend (last_close : ℚ) (sma20 sma50 sma200 : Option ℚ) :
    TrendLabel :=
  match sma20, sma50, sma200 with
  | some s20, some s50, some s200 =>
    if last_close > s20 ∧ s20 > s50 ∧ s50 > s200 then .strongUptrend
    else if (last_close > s20 ∧ s20 > s50) ∧ s200 ≤ s50 then .uptrend
    else if last_close < s20 ∧ s20 < s50 ∧ s50 < s200 then .strongDowntrend
    else if last_close < s20 ∧ s20 < s50 then .downtrend
    else .sidewaysMixed
  | _, _, _ => .insufficientData

/-- The Trend Classifier rules exactly as the spec states them (§4.2),
written independently of the source: five rules on defined SMAs, first
match wins. -/
def classifyTrendSpec (close s20 s50 s200 : ℚ) : TrendLabel :=
  if close > s20 ∧ s20 > s50 ∧ s50 > s200 then .strongUptrend
  else if close > s20 ∧ s20 > s50 ∧ s200 ≤ s50 then .uptrend
  else if close < s20 ∧ s20 < s50 ∧ s50 < s200 then .strongDowntrend
  else if close < s20 ∧ s20 < s50 then .downtrend
  else .sidewaysMixed

/-- Helper lemma: indexing the output of `compute_indicators`. -/
theorem compute_indicators_getD (df : List Bar) (i : ℕ) (h : i < df.length) :
    (compute_indicators df).getD i defaultIndicatorRow = mkIndicatorRow df i := by
  unfold compute_indicators
  rw [List.getD_eq_getElem?_getD, List.getElem?_map, List.getElem?_range h]
  rfl

/-- Helper lemma: out-of-range indexing of `compute_indicators` gives the
default row (all indicator fields `none`). -/
theorem compute_indicators_getD_default (df : List Bar) (i : ℕ)
    (h : df.length ≤ i) :
    (compute_indicators df).getD i defaultIndicatorRow = defaultIndicatorRow := by
  unfold compute_indicators
  rw [List.getD_eq_getElem?_getD, List.getElem?_map,
    List.getElem?_eq_none (by simpa using h)]
  rfl

/-- IEEE-style `≤` on possibly-NaN floats: false if either side is NaN. -/
def oLE (x y : Option ℚ) : Bool :=
  match x, y with
  | some a, some b => decide (a ≤ b)
  | _, _ => false

/-- IEEE-style `<` on possibly-NaN floats: false if either side is NaN. -/
def oLT (x y : Option ℚ) : Bool :=
  match x, y with
  | some a, some b => decide (a < b)
  | _, _ => false

/-- The four signal labels assigned by `generate_signal_row`. -/
inductive SignalLabel where
  | momentumLong         -- "Momentum Long"
  | oversoldWatch        -- "Oversold Watch"
  | avoidShortBias       -- "Avoid / Short Bias"
  | noTrade              -- "No Trade"
deriving DecidableEq

/-- The signal assignment of `generate_signal_row` (lines 119-132).
`trend.startswith("Strong Uptrend")` holds exactly for the label
"Strong Uptrend" (no other label string has it as a prefix), so it is the
equality test with `.strongUptrend`; likewise for "Strong Downtrend".
The float comparisons `55 <= rsi <= 75`, `rsi < 30`, `rsi < 45` and
`last_close > sma200` are all false when the operand is NaN. -/
def signalLogic (trend : TrendLabel) (rsi : Option ℚ) (pct_change : ℚ)
    (last_close : ℚ) (sma200 : Option ℚ) : SignalLabel :=
  if trend = .strongUptrend ∧ oLE (some 55) rsi ∧ oLE rsi (some 75)
      ∧ 0 < pct_change then .momentumLong
  else if oLT rsi (some 30) ∧ oLT sma200 (some last_close) then .oversoldWatch
  else if trend = .strongDowntrend ∧ oLT rsi (some 45) then .avoidShortBias
  else .noTrade

/-- The signal rules exactly as the spec states them (§4.3 step 3),
written from the spec text: first match wins, and a comparison against an
undefined reading fails. -/
def signalSpec (trend : TrendLabel) (rsi : Option ℚ) (pct_change : ℚ)
    (last_close : ℚ) (sma200 : Option ℚ) : SignalLabel :=
  if trend = .strongUptrend
      ∧ (rsi.any fun x => decide (55 ≤ x ∧ x ≤ 75))
      ∧ 0 < pct_change then .momentumLong
  else if (rsi.any fun x => decide (x < 30))
      ∧ (sma200.any fun s => decide (s < last_close)) then .oversoldWatch
  else if trend = .strongDowntrend
      ∧ (rsi.any fun x => decide (x < 45)) then .avoidShortBias
  else .noTrade

/-- Python `int()` on a rational: truncation toward zero
(`Rat.floor`/`Rat.ceil` are used directly so that proofs can evaluate). -/
def pyInt (q : ℚ) : ℤ :=
  if 0 ≤ q then q.floor else q.ceil

/-- Python `round(q, d)`: round to `d` decimal places, ties to even. -/
def pyRound (q : ℚ) (d : ℕ) : ℚ :=
  let m := q * 10 ^ d
  let n := m.floor
  let k : ℤ :=
    if m - n < 1 / 2 then n
    else if (1 : ℚ) / 2 < m - n then n + 1
    else if n % 2 = 0 then n else n + 1
  (k : ℚ) / 10 ^ d

/-- The risk-management block of `generate_signal_row` (lines 135-142),
returning `(stop_distance, stop_loss, risk_dollars, position_size)`.
`atr if atr > 0 else last_close * 0.03`: the comparison `NaN > 0` is
false, so an undefined ATR also takes the 3% fallback. -/
def riskNumbers (last_close : ℚ) (atr : Option ℚ) (capital risk_pct : ℚ) :
    ℚ × ℚ × ℚ × ℚ :=
  let stop_distance := if oLT (some 0) atr then atr.getD 0 else last_close * 0.03
  let stop_loss := last_close - stop_distance
  if stop_loss ≤ 0 then
    (stop_distance, stop_loss, 0, 0)
  else
    let risk_dollars := capital * risk_pct
    let position_size :=
      if 0 < last_close - stop_loss then risk_dollars / (last_close - stop_loss)
      else 0
    (stop_distance, stop_loss, risk_dollars, position_size)

/-- The dictionary row returned by `generate_signal_row`. -/
structure ScanRow where
  symbol : String        -- "Symbol"
  lastPrice : ℚ          -- "Last Price" (rounded to 4 places)
  pctChange : ℚ          -- "1D %" (rounded to 2 places)
  rsi14 : Option ℚ       -- "RSI14" (rounded to 2 places; NaN kept as NaN)
  trend : TrendLabel     -- "Trend"
  signal : SignalLabel   -- "Signal"
  atr14 : Option ℚ       -- "ATR14" (rounded to 4 places; NaN kept as NaN)
  suggestedStop : ℚ      -- "Suggested Stop" (rounded to 4 places)
  riskDollars : ℚ        -- "Risk $" (rounded to 2 places)
  sizeUnits : ℤ          -- "Size (units)" (int() of position_size)
deriving DecidableEq

/-- `generate_signal_row` from `streamlit/app.py`: `None` (here `none`)
when fewer than 30 rows exist; otherwise one `ScanRow` built from the last
two rows of the indicator dataframe.  `df.iloc[-1]` and `df.iloc[-2]` are
the rows at positions `len-1` and `len-2`; `last.get("rsi14", nan)` etc.
are the `Option` indicator fields. -/
def generate_signal_row (symbol : String) (df : List IndicatorRow)
    (capital risk_pct : ℚ) : Option ScanRow :=
  if df.isEmpty ∨ df.length < 30 then none
  else
    let last := df.getD (df.length - 1) defaultIndicatorRow
    let prev := df.getD (df.length - 2) defaultIndicatorRow
    let last_close := last.close
    let prev_close := prev.close
    let pct_change := (last_close - prev_close) / prev_close * 100
    let trend := classify_trend last_close last.sma20 last.sma50 last.sma200
    let signal := signalLogic trend last.rsi14 pct_change last_close last.sma200
    let rn := riskNumbers last_close last.atr14 capital risk_pct
    some
      { symbol := symbol,
        lastPrice := pyRound last_close 4,
        pctChange := pyRound pct_change 2,
        rsi14 := last.rsi14.map (fun x => pyRound x 2),
        trend := trend,
        signal := signal,
        atr14 := last.atr14.map (fun x => pyRound x 4),
        suggestedStop := pyRound rn.2.1 4,
        riskDollars := pyRound rn.2.2.1 2,
        sizeUnits := pyInt rn.2.2.2 }

/-- The entry condition of `simple_backtest_momentum` (lines 181-186),
evaluated on the *previous* bar: Strong Uptrend per `classify_trend`,
`55 <= rsi14 <= 75`, and `close > close * 0.995` (the "avoid flat days"
clause, which for a row is simply `0 < 0.005 * close`, i.e. positivity). -/
def momentumCond (prev : IndicatorRow) : Bool :=
  decide (classify_trend prev.close prev.sma20 prev.sma50 prev.sma200
      = .strongUptrend)
  && oLE (some 55) prev.rsi14 && oLE prev.rsi14 (some 75)
  && decide (prev.close * 0.995 < prev.close)

/-- The exit condition of `simple_backtest_momentum` (line 194), evaluated
on the *current* bar: `close < sma20 or rsi14 < 50` (false against NaN). -/
def exitCond (cur : IndicatorRow) : Bool :=
  oLT (some cur.close) cur.sma20 || oLT cur.rsi14 (some 50)

/-- The mutable state of the backtest replay loop.  In the source,
`in_trade : bool` and `entry_price : Optional[float]` are kept in
lockstep (`entry_price` is set exactly while `in_trade` is `True`), so
they are modelled together as `pos : Option ℚ`. -/
structure BTState where
  pos : Option ℚ
  results : List ℚ
deriving DecidableEq

/-- The replay loop `for i in range(1, len(df))` of
`simple_backtest_momentum` (lines 176-200): each iteration sees the
previous row and the current row.  Entering (`continue` in the source)
skips the exit check for that bar; while in a trade the entry branch is
unreachable (`not in_trade` fails). -/
def btLoop (prev : IndicatorRow) (rest : List IndicatorRow) (s : BTState) :
    BTState :=
  match rest with
  | [] => s
  | cur :: tl =>
    match s.pos with
    | none =>
      if momentumCond prev then btLoop cur tl ⟨some cur.open_, s.results⟩
      else btLoop cur tl s
    | some entry =>
      if exitCond cur then
        btLoop cur tl ⟨none, s.results ++ [(cur.close - entry) / entry]⟩
      else btLoop cur tl s

/-- The aggregate statistics returned by `simple_backtest_momentum`. -/
structure BacktestStats where
  trades : ℕ            -- "Trades"
  winPct : Option ℚ     -- "Win %" (np.nan when no trades)
  avgR : Option ℚ       -- "Avg R"
  totalR : Option ℚ     -- "Total R"
deriving DecidableEq

/-- The zero-trade result `{"Trades": 0, "Win %": nan, ...}`. -/
def zeroStats : BacktestStats := ⟨0, none, none, none⟩

/-- The `dropna(subset=["sma20", "sma50", "sma200", "rsi14"])` predicate:
a row is kept when all four of those columns are non-NaN. -/
def indicatorDefined (r : IndicatorRow) : Bool :=
  r.sma20.isSome && r.sma50.isSome && r.sma200.isSome && r.rsi14.isSome

/-- Replaying the state machine over the kept rows and collecting the list
of per-trade returns (the `results` list of the source). -/
def replayResults (kept : List IndicatorRow) : List ℚ :=
  match kept with
  | [] => []
  | first :: rest => (btLoop first rest ⟨none, []⟩).results

/-- Aggregation of the `results` list (lines 202-216): zero-trade stats
when empty, else count/win-percentage/mean/sum with the source's
rounding. -/
def aggregateStats (results : List ℚ) : BacktestStats :=
  if results.isEmpty then zeroStats
  else
    let trades := results.length
    let wins := (results.filter fun r => decide (0 < r)).length
    { trades := trades,
      winPct := some (pyRound ((wins : ℚ) / (trades : ℚ) * 100) 1),
      avgR := some (pyRound (results.sum / (trades : ℚ)) 3),
      totalR := some (pyRound results.sum 3) }

/-- `simple_backtest_momentum` from `streamlit/app.py`.  Note the ≥ 60-bar
guard is applied to the *input* series, before `compute_indicators` and
the `dropna`. -/
def simple_backtest_momentum (df : List Bar) : BacktestStats :=
  if df.isEmpty ∨ df.length < 60 then zeroStats
  else
    aggregateStats (replayResults
      ((compute_indicators df).filter indicatorDefined))

/-- C4: the Trend Classifier is total and deterministic: with any SMA
undefined it returns `insufficientData`; with all three defined it never
returns `insufficientData` (so it lands in exactly one of the five trend
labels, being a function), and it agrees with the spec rules evaluated in
the spec order with first match winning. -/
theorem c4_classify_trend_total_and_ordered :
    (∀ (c : ℚ) (s20 s50 s200 : Option ℚ),
      s20 = none ∨ s50 = none ∨ s200 = none →
      classify_trend c s20 s50 s200 = .insufficientData)
    ∧ (∀ c a b d : ℚ,
      classify_trend c (some a) (some b) (some d) ≠ .insufficientData
      ∧ classify_trend c (some a) (some b) (some d) = classifyTrendSpec c a b d) := by
  constructor
  · rintro c s20 s50 s200 (rfl | rfl | rfl)
    · cases s50 <;> cases s200 <;> rfl
    · cases s20 <;> cases s200 <;> rfl
    · cases s20 <;> cases s50 <;> rfl
  · intro c a b d
    constructor
    · simp only [classify_trend]
      split_ifs <;> simp
    · simp only [classify_trend, classifyTrendSpec]
      split_ifs <;> first | rfl | (exfalso; tauto)

/-- Witness for C4 at concrete inputs. -/
theorem c4_witness :
    classify_trend 1 none (some 2) (some 3) = .insufficientData
    ∧ classify_trend 5 (some 4) (some 3) (some 2) = classifyTrendSpec 5 4 3 2 :=
  ⟨c4_classify_trend_total_and_ordered.1 1 none (some 2) (some 3) (Or.inl rfl),
   (c4_classify_trend_total_and_ordered.2 5 4 3 2).2⟩

/-- C9: the plain `Uptrend` label is only reachable when `sma50 = sma200`
exactly: rule 3 is reached only when rule 2 failed, and with
`close > sma20 > sma50` that failure forces `sma50 ≤ sma200`, while rule 3
itself demands `sma200 ≤ sma50`. -/
theorem c9_uptrend_needs_sma50_eq_sma200 :
    ∀ c s20 s50 s200 : ℚ,
      classify_trend c (some s20) (some s50) (some s200) = .uptrend →
      s50 = s200 := by
  intro c s20 s50 s200 h
  simp only [classify_trend] at h
  split_ifs at h with h1 h2 h3 h4
  exact le_antisymm (not_lt.mp fun hg => h1 ⟨h2.1.1, h2.1.2, hg⟩) h2.2

/-- Witness for C9: a concrete input that reaches `Uptrend`. -/
theorem c9_witness :
    classify_trend 4 (some 3) (some 2) (some 2) = .uptrend ∧ (2 : ℚ) = 2 :=
  ⟨by decide, c9_uptrend_needs_sma50_eq_sma200 4 3 2 2 (by decide)⟩

/-- C8: with fewer than 30 rows (including the empty series) the Signal
Generator returns no `ScanRow`, whatever the capital and risk-fraction
arguments, and raises no error (it is a total function). -/
theorem c8_min_history_guard :
    ∀ (sym : String) (df : List IndicatorRow) (capital risk_pct : ℚ),
      df.length < 30 →
      generate_signal_row sym df capital risk_pct = none := by
  intro sym df capital risk_pct h
  unfold generate_signal_row
  rw [if_pos (Or.inr h)]

/-- Witness for C8 at the empty series. -/
theorem c8_witness :
    ([] : List IndicatorRow).length < 30
    ∧ generate_signal_row "AAPL" [] 25000 (3 / 1000) = none :=
  ⟨by decide, c8_min_history_guard "AAPL" [] 25000 (3 / 1000) (by decide)⟩

/-- C5: the signal is chosen in first-match order exactly as the spec
states it: the source's signal chain (`signalLogic`) coincides with the
spec's rules (`signalSpec`), and every `ScanRow` the generator produces
carries the signal computed by that chain from the last row's trend, RSI,
percent change, close, and SMA200. -/
theorem c5_signal_first_match :
    (∀ (trend : TrendLabel) (rsi : Option ℚ) (pct lc : ℚ) (s200 : Option ℚ),
      signalLogic trend rsi pct lc s200 = signalSpec trend rsi pct lc s200)
    ∧ (∀ (sym : String) (df : List IndicatorRow) (capital rp : ℚ)
        (row : ScanRow),
      generate_signal_row sym df capital rp = some row →
      row.signal =
        signalLogic
          (classify_trend (df.getD (df.length - 1) defaultIndicatorRow).close
            (df.getD (df.length - 1) defaultIndicatorRow).sma20
            (df.getD (df.length - 1) defaultIndicatorRow).sma50
            (df.getD (df.length - 1) defaultIndicatorRow).sma200)
          (df.getD (df.length - 1) defaultIndicatorRow).rsi14
          (((df.getD (df.length - 1) defaultIndicatorRow).close
              - (df.getD (df.length - 2) defaultIndicatorRow).close)
            / (df.getD (df.length - 2) defaultIndicatorRow).close * 100)
          (df.getD (df.length - 1) defaultIndicatorRow).close
          (df.getD (df.length - 1) defaultIndicatorRow).sma200) := by
  constructor
  · intro trend rsi pct lc s200
    unfold signalLogic signalSpec
    cases rsi <;> cases s200 <;> simp [oLE, oLT, Option.any, and_assoc]
  · intro sym df capital rp row h
    unfold generate_signal_row at h
    split_ifs at h
    injection h with h
    subst h
    rfl

/-- A concrete indicator dataframe (30 identical rows, last close 100, ATR
2) used by several witnesses and by the C6 sizing scenario. -/
def c6Df : List IndicatorRow :=
  List.replicate 30 ⟨100, 100, 100, 100, 0, none, none, none, none, some 2, none⟩

/-- Witness for C5 on a concrete dataframe. -/
theorem c5_witness :
    signalLogic .strongUptrend (some 60) 1 100 (some 90)
      = signalSpec .strongUptrend (some 60) 1 100 (some 90)
    ∧ (generate_signal_row "X" c6Df 25000 (3 / 1000)).map (·.signal)
      = some .noTrade := by
  refine ⟨c5_signal_first_match.1 .strongUptrend (some 60) 1 100 (some 90), ?_⟩
  cases hrow : generate_signal_row "X" c6Df 25000 (3 / 1000) with
  | none => exact absurd hrow (by decide)
  | some row =>
    have hsig := c5_signal_first_match.2 "X" c6Df 25000 (3 / 1000) row hrow
    show some row.signal = some SignalLabel.noTrade
    rw [hsig]
    decide

/-- C6: stop distance, stop loss, risk dollars and position size.
`stopDistance` is the ATR when it is defined and positive, else 3% of the
last close (also when the ATR is NaN); `stopLoss = lastClose −
stopDistance`; when `stopLoss > 0` the risk dollars are
`capital × riskFraction` and the (pre-truncation) position size is
`riskDollars / (lastClose − stopLoss)`; each produced row carries the
truncation `int(position_size)`; and the spec's concrete scenario
(capital 25000, risk 0.003, close 100, ATR 2) yields stop 98, risk $75,
size 37. -/
theorem c6_risk_management :
    (∀ lc a capital rp : ℚ, 0 < a →
      (riskNumbers lc (some a) capital rp).1 = a)
    ∧ (∀ lc a capital rp : ℚ, a ≤ 0 →
      (riskNumbers lc (some a) capital rp).1 = lc * 0.03)
    ∧ (∀ lc capital rp : ℚ, (riskNumbers lc none capital rp).1 = lc * 0.03)
    ∧ (∀ (lc : ℚ) (atr : Option ℚ) (capital rp : ℚ),
      (riskNumbers lc atr capital rp).2.1 = lc - (riskNumbers lc atr capital rp).1)
    ∧ (∀ (lc : ℚ) (atr : Option ℚ) (capital rp : ℚ),
      0 < (riskNumbers lc atr capital rp).2.1 →
      (riskNumbers lc atr capital rp).2.2.1 = capital * rp
      ∧ (riskNumbers lc atr capital rp).2.2.2
        = capital * rp / (lc - (riskNumbers lc atr capital rp).2.1))
    ∧ (∀ (sym : String) (df : List IndicatorRow) (capital rp : ℚ)
        (row : ScanRow),
      generate_signal_row sym df capital rp = some row →
      row.suggestedStop = pyRound (riskNumbers
        (df.getD (df.length - 1) defaultIndicatorRow).close
        (df.getD (df.length - 1) defaultIndicatorRow).atr14 capital rp).2.1 4
      ∧ row.riskDollars = pyRound (riskNumbers
        (df.getD (df.length - 1) defaultIndicatorRow).close
        (df.getD (df.length - 1) defaultIndicatorRow).atr14 capital rp).2.2.1 2
      ∧ row.sizeUnits = pyInt (riskNumbers
        (df.getD (df.length - 1) defaultIndicatorRow).close
        (df.getD (df.length - 1) defaultIndicatorRow).atr14 capital rp).2.2.2)
    ∧ (generate_signal_row "X" c6Df 25000 (3 / 1000)).map
        (fun r => (r.suggestedStop, r.riskDollars, r.sizeUnits))
      = some (98, 75, 37) := by
  refine ⟨?_, ?_, ?_, ?_, ?_, ?_, by with_unfolding_all rfl⟩
  · intro lc a capital rp h
    have hb : oLT (some 0) (some a) = true := by simp [oLT, h]
    simp only [riskNumbers, hb, eq_self_iff_true, if_true]
    split_ifs <;> rfl
  · intro lc a capital rp h
    have hb : oLT (some 0) (some a) = false := by simp [oLT]; linarith
    simp only [riskNumbers, hb, Bool.false_eq_true, if_false]
    split_ifs <;> rfl
  · intro lc capital rp
    simp only [riskNumbers]
    split_ifs <;> first | rfl | contradiction
  · intro lc atr capital rp
    simp only [riskNumbers]
    split_ifs <;> rfl
  · intro lc atr capital rp h
    cases atr with
    | none =>
      have hb : oLT (some 0) (none : Option ℚ) = false := by simp [oLT]
      simp only [riskNumbers, hb, Bool.false_eq_true, if_false] at h ⊢
      split_ifs at h ⊢ with h1 h2
      · exact absurd (show (0 : ℚ) < lc - lc * 3e-2 from h) (not_lt.mpr h1)
      · exact ⟨rfl, rfl⟩
      · -- stop_loss = lc - lc * 0.03 > 0 forces lc > 0, so the inner
        -- positivity test lc - stop_loss = lc * 0.03 > 0 also holds
        exfalso
        push_neg at h1 h2
        linarith
    | some a =>
      by_cases ha : 0 < a
      · have hb : oLT (some 0) (some a) = true := by simp [oLT, ha]
        simp only [riskNumbers, hb, eq_self_iff_true, if_true,
          Option.getD_some] at h ⊢
        split_ifs at h ⊢ with h1 h2
        · exact absurd (show (0 : ℚ) < lc - a from h) (not_lt.mpr h1)
        · exact ⟨rfl, rfl⟩
        · exfalso
          push_neg at h2
          linarith
      · have hb : oLT (some 0) (some a) = false := by simp [oLT]; linarith
        simp only [riskNumbers, hb, Bool.false_eq_true, if_false] at h ⊢
        split_ifs at h ⊢ with h1 h2
        · exact absurd (show (0 : ℚ) < lc - lc * 3e-2 from h) (not_lt.mpr h1)
        · exact ⟨rfl, rfl⟩
        · exfalso
          push_neg at h1 h2
          linarith
  · intro sym df capital rp row h
    unfold generate_signal_row at h
    split_ifs at h
    injection h with h
    subst h
    exact ⟨rfl, rfl, rfl⟩

/-- Witness for C6 at concrete inputs. -/
theorem c6_witness :
    (0 : ℚ) < 2
    ∧ (riskNumbers 100 (some 2) 25000 (3 / 1000)).1 = 2
    ∧ (riskNumbers 100 (some 2) 25000 (3 / 1000)).2.2.1 = 25000 * (3 / 1000)
    ∧ ∃ row, generate_signal_row "X" c6Df 25000 (3 / 1000) = some row
        ∧ row.sizeUnits = pyInt (riskNumbers
            (c6Df.getD (c6Df.length - 1) defaultIndicatorRow).close
            (c6Df.getD (c6Df.length - 1) defaultIndicatorRow).atr14
            25000 (3 / 1000)).2.2.2 := by
  have h2 : (0 : ℚ) < 2 := by norm_num
  have hpos : 0 < (riskNumbers 100 (some 2) 25000 (3 / 1000)).2.1 := by
    with_unfolding_all decide
  refine ⟨h2, c6_risk_management.1 100 2 25000 (3 / 1000) h2,
    (c6_risk_management.2.2.2.2.1 100 (some 2) 25000 (3 / 1000) hpos).1, ?_⟩
  cases hrow : generate_signal_row "X" c6Df 25000 (3 / 1000) with
  | none => exact absurd hrow (by decide)
  | some row =>
    exact ⟨row, rfl,
      (c6_risk_management.2.2.2.2.2.1 "X" c6Df 25000 (3 / 1000) row hrow).2.2⟩

/-- C10: with at least 30 rows but an undefined SMA200 on the last row,
the Signal Generator still returns a `ScanRow` and its signal is always
`NoTrade`: the trend is `InsufficientData` (so neither Strong label
matches), and `lastClose > sma200` is false against NaN.  The second
conjunct instantiates this for any price series of length in [30, 200)
run through the Indicator Engine. -/
theorem c10_short_history_yields_no_trade :
    (∀ (sym : String) (df : List IndicatorRow) (capital rp : ℚ),
      30 ≤ df.length →
      (df.getD (df.length - 1) defaultIndicatorRow).sma200 = none →
      (generate_signal_row sym df capital rp).map (·.signal)
        = some .noTrade)
    ∧ (∀ (sym : String) (bars : List Bar) (capital rp : ℚ),
      30 ≤ bars.length → bars.length < 200 →
      (generate_signal_row sym (compute_indicators bars) capital rp).map
        (·.signal) = some .noTrade) := by
  have main : ∀ (sym : String) (df : List IndicatorRow) (capital rp : ℚ),
      30 ≤ df.length →
      (df.getD (df.length - 1) defaultIndicatorRow).sma200 = none →
      (generate_signal_row sym df capital rp).map (·.signal)
        = some .noTrade := by
    intro sym df capital rp h30 hs
    unfold generate_signal_row
    rw [if_neg]
    · show some (signalLogic
        (classify_trend (df.getD (df.length - 1) defaultIndicatorRow).close
          (df.getD (df.length - 1) defaultIndicatorRow).sma20
          (df.getD (df.length - 1) defaultIndicatorRow).sma50
          (df.getD (df.length - 1) defaultIndicatorRow).sma200) _ _ _
        (df.getD (df.length - 1) defaultIndicatorRow).sma200)
        = some SignalLabel.noTrade
      rw [hs]
      have htrend : classify_trend
          (df.getD (df.length - 1) defaultIndicatorRow).close
          (df.getD (df.length - 1) defaultIndicatorRow).sma20
          (df.getD (df.length - 1) defaultIndicatorRow).sma50 none
          = .insufficientData := by
        cases (df.getD (df.length - 1) defaultIndicatorRow).sma20 <;>
          cases (df.getD (df.length - 1) defaultIndicatorRow).sma50 <;> rfl
      rw [htrend]
      simp [signalLogic, oLT]
    · rintro (he | hl)
      · rw [List.isEmpty_iff] at he
        simp [he] at h30
      · omega
  refine ⟨main, ?_⟩
  intro sym bars capital rp h30 h200
  have hlen : (compute_indicators bars).length = bars.length := by
    simp [compute_indicators]
  apply main
  · omega
  · rw [hlen, compute_indicators_getD bars (bars.length - 1) (by omega)]
    have : bars.length - 1 + 1 < 200 := by omega
    simp [mkIndicatorRow, rollingMean, this]

/-- Witness for C10 at concrete inputs. -/
theorem c10_witness :
    (30 : ℕ) ≤ c6Df.length
    ∧ (c6Df.getD (c6Df.length - 1) defaultIndicatorRow).sma200 = none
    ∧ (generate_signal_row "A" c6Df 1 1).map (·.signal) = some .noTrade
    ∧ (generate_signal_row "B" (compute_indicators (List.replicate 30 defaultBar))
        1 1).map (·.signal) = some .noTrade :=
  ⟨by decide, by decide,
   c10_short_history_yields_no_trade.1 "A" c6Df 1 1 (by decide) (by decide),
   c10_short_history_yields_no_trade.2 "B" (List.replicate 30 defaultBar) 1 1
     (by simp) (by simp)⟩

/-- A concrete 14-bar series with strictly rising prices. -/
def c1Bars : List Bar :=
  (List.range 14).map (fun i =>
    let q : ℚ := (100 + i : ℕ)
    ⟨q, q, q, q, 0⟩)

/-- Counterexample to C1 as stated: on a 14-bar series, `rsi14` and
`atr14` of the row at zero-based index 13 are already defined, while the
claim says both are undefined for every index `< 14`.  The NaN first
delta is turned into a zero gain/loss by `np.where`, and the NaN-skipping
row-max makes the first true range `high − low`, so both rolling means
are full after 14 rows (index 13). -/
theorem c1_counterexample :
    c1Bars.length = 14
    ∧ ((compute_indicators c1Bars).getD 13 defaultIndicatorRow).rsi14.isSome = true
    ∧ ((compute_indicators c1Bars).getD 13 defaultIndicatorRow).atr14.isSome = true := by
  decide

/-- C1 amended: for every price series, `rsi14` and `atr14` are undefined
exactly for the first 13 positions (indices `< 13`) and are defined from
index 13 on (within the series): one full 14-value rolling window is
enough, because the first diff/prev-close NaN is absorbed (zero gain/loss
via `np.where`; first true range `high − low` via the NaN-skipping max)
rather than consuming an extra position. -/
theorem c1_amended_rsi_atr_defined_from_13 :
    ∀ (df : List Bar) (i : ℕ),
      (i < 13 →
        ((compute_indicators df).getD i defaultIndicatorRow).rsi14 = none
        ∧ ((compute_indicators df).getD i defaultIndicatorRow).atr14 = none)
      ∧ (13 ≤ i → i < df.length →
        ((compute_indicators df).getD i defaultIndicatorRow).rsi14.isSome = true
        ∧ ((compute_indicators df).getD i defaultIndicatorRow).atr14.isSome = true) := by
  intro df i
  constructor
  · intro h13
    by_cases hi : i < df.length
    · rw [compute_indicators_getD df i hi]
      have hw : i + 1 < 14 := by omega
      simp [mkIndicatorRow, rollingMean, hw]
    · rw [compute_indicators_getD_default df i (le_of_not_lt hi)]
      exact ⟨rfl, rfl⟩
  · intro h13 hi
    rw [compute_indicators_getD df i hi]
    have hw : ¬(i + 1 < 14) := by omega
    simp [mkIndicatorRow, rollingMean, hw]

/-- Witness for the amended C1 at concrete indices of `c1Bars`. -/
theorem c1_witness :
    (5 < 13
      ∧ ((compute_indicators c1Bars).getD 5 defaultIndicatorRow).rsi14 = none)
    ∧ (13 ≤ 13 ∧ 13 < c1Bars.length
      ∧ ((compute_indicators c1Bars).getD 13 defaultIndicatorRow).atr14.isSome
        = true) :=
  ⟨⟨by decide, ((c1_amended_rsi_atr_defined_from_13 c1Bars 5).1 (by decide)).1⟩,
   ⟨by decide, by decide,
    (((c1_amended_rsi_atr_defined_from_13 c1Bars 13).2 (by decide)
      (by decide)).2)⟩⟩

/-- Helper: in-range `getD` is a member of the list. -/
theorem getD_mem_of_lt {α : Type} (l : List α) (i : ℕ) (d : α)
    (h : i < l.length) : l.getD i d ∈ l := by
  rw [List.getD_eq_getElem?_getD, List.getElem?_eq_getElem h]
  simp only [Option.getD_some]
  exact List.getElem_mem h

/-- Helper: on a series whose closes are all `c`, every gain is zero. -/
theorem gainList_flat (df : List Bar) (c : ℚ)
    (hc : ∀ b ∈ df, b.close = c) :
    ∀ x ∈ gainList (df.map (·.close)), x = 0 := by
  intro x hx
  unfold gainList at hx
  obtain ⟨j, hj, rfl⟩ := List.mem_map.mp hx
  have hjlt : j < (df.map (·.close)).length := List.mem_range.mp hj
  rw [List.length_map] at hjlt
  cases j with
  | zero => simp [diffAt]
  | succ k =>
    have h1 : (df.map (·.close)).getD (k + 1) 0 = c := by
      rw [List.getD_eq_getElem?_getD, List.getElem?_map,
        List.getElem?_eq_getElem hjlt]
      exact hc _ (List.getElem_mem hjlt)
    have h2 : (df.map (·.close)).getD k 0 = c := by
      have hk : k < df.length := by omega
      rw [List.getD_eq_getElem?_getD, List.getElem?_map,
        List.getElem?_eq_getElem hk]
      exact hc _ (List.getElem_mem hk)
    have hd : diffAt (df.map (·.close)) (k + 1) = some 0 := by
      unfold diffAt
      rw [if_neg (Nat.succ_ne_zero k), h1]
      simp only [Nat.add_sub_cancel]
      rw [h2, sub_self]
    rw [hd]
    simp

/-- Helper: on a series whose closes are all `c`, every loss is zero. -/
theorem lossList_flat (df : List Bar) (c : ℚ)
    (hc : ∀ b ∈ df, b.close = c) :
    ∀ x ∈ lossList (df.map (·.close)), x = 0 := by
  intro x hx
  unfold lossList at hx
  obtain ⟨j, hj, rfl⟩ := List.mem_map.mp hx
  have hjlt : j < (df.map (·.close)).length := List.mem_range.mp hj
  rw [List.length_map] at hjlt
  cases j with
  | zero => simp [diffAt]
  | succ k =>
    have h1 : (df.map (·.close)).getD (k + 1) 0 = c := by
      rw [List.getD_eq_getElem?_getD, List.getElem?_map,
        List.getElem?_eq_getElem hjlt]
      exact hc _ (List.getElem_mem hjlt)
    have h2 : (df.map (·.close)).getD k 0 = c := by
      have hk : k < df.length := by omega
      rw [List.getD_eq_getElem?_getD, List.getElem?_map,
        List.getElem?_eq_getElem hk]
      exact hc _ (List.getElem_mem hk)
    have hd : diffAt (df.map (·.close)) (k + 1) = some 0 := by
      unfold diffAt
      rw [if_neg (Nat.succ_ne_zero k), h1]
      simp only [Nat.add_sub_cancel]
      rw [h2, sub_self]
    rw [hd]
    simp

/-- Helper: on a constant-price series every true range is zero. -/
theorem trList_flat (df : List Bar) (c : ℚ)
    (hc : ∀ b ∈ df, b.high = c ∧ b.low = c ∧ b.close = c) :
    ∀ x ∈ trList df, x = 0 := by
  intro x hx
  unfold trList at hx
  obtain ⟨j, hj, rfl⟩ := List.mem_map.mp hx
  have hjlt : j < df.length := List.mem_range.mp hj
  have hbj := hc _ (getD_mem_of_lt df j defaultBar hjlt)
  cases j with
  | zero =>
    rw [List.getD_eq_getElem?_getD] at hbj
    simp [hbj.1, hbj.2.1]
  | succ k =>
    have hbk := hc _ (getD_mem_of_lt df k defaultBar (by omega))
    rw [List.getD_eq_getElem?_getD] at hbj hbk
    simp [hbj.1, hbj.2.1, hbk.2.2]

/-- Helper: the rolling mean of an all-zero list is zero once the window
is full. -/
theorem rollingMean_zero (xs : List ℚ) (h0 : ∀ x ∈ xs, x = 0) (w i : ℕ)
    (hw : ¬(i + 1 < w)) : rollingMean w xs i = some 0 := by
  unfold rollingMean
  rw [if_neg hw]
  have hsum : ((xs.drop (i + 1 - w)).take w).sum = 0 :=
    List.sum_eq_zero fun x hx =>
      h0 x (List.drop_subset _ _ (List.take_subset _ _ hx))
  rw [hsum, zero_div]

/-- C3: on a constant-price series of length ≥ 200 (high = low = close =
`c` on every bar), the last row's ATR14 is exactly 0 and its RSI14 is
exactly 0 (gain = loss = 0, RS = 0/(0 + 1e-9) = 0, RSI = 100 − 100/(1+0)
— not a neutral 50), and the Signal Generator's stop distance falls back
to 3% of the last close because `atr > 0` fails. -/
theorem c3_flat_series :
    ∀ (df : List Bar) (c capital rp : ℚ),
      200 ≤ df.length →
      (∀ b ∈ df, b.high = c ∧ b.low = c ∧ b.close = c) →
      ((compute_indicators df).getD (df.length - 1) defaultIndicatorRow).atr14
        = some 0
      ∧ ((compute_indicators df).getD (df.length - 1) defaultIndicatorRow).rsi14
        = some 0
      ∧ (riskNumbers
          ((compute_indicators df).getD (df.length - 1) defaultIndicatorRow).close
          ((compute_indicators df).getD (df.length - 1) defaultIndicatorRow).atr14
          capital rp).1
        = ((compute_indicators df).getD (df.length - 1) defaultIndicatorRow).close
            * 0.03 := by
  intro df c capital rp hlen hconst
  have hi : df.length - 1 < df.length := by omega
  have hw : ¬(df.length - 1 + 1 < 14) := by omega
  have hatr : rollingMean 14 (trList df) (df.length - 1) = some 0 :=
    rollingMean_zero _ (trList_flat df c hconst) 14 _ hw
  have hru : rollingMean 14 (gainList (df.map (·.close))) (df.length - 1)
      = some 0 :=
    rollingMean_zero _ (gainList_flat df c fun b hb => (hconst b hb).2.2) 14 _ hw
  have hrd : rollingMean 14 (lossList (df.map (·.close))) (df.length - 1)
      = some 0 :=
    rollingMean_zero _ (lossList_flat df c fun b hb => (hconst b hb).2.2) 14 _ hw
  rw [compute_indicators_getD df _ hi]
  have hA : (mkIndicatorRow df (df.length - 1)).atr14 = some 0 := by
    simp only [mkIndicatorRow]
    exact hatr
  have hR : (mkIndicatorRow df (df.length - 1)).rsi14 = some 0 := by
    simp only [mkIndicatorRow, hru, hrd, Option.map_some]
    norm_num
  refine ⟨hA, hR, ?_⟩
  rw [hA]
  have hb : oLT (some 0) (some (0 : ℚ)) = false := by simp [oLT]
  simp only [riskNumbers, hb, Bool.false_eq_true, if_false]
  split_ifs <;> rfl

/-- The constant 200-bar series used by the C3 witness. -/
def c3Bars : List Bar := List.replicate 200 ⟨7, 7, 7, 7, 7⟩

/-- Witness for C3 on the concrete constant series. -/
theorem c3_witness :
    (200 : ℕ) ≤ c3Bars.length
    ∧ (∀ b ∈ c3Bars, b.high = 7 ∧ b.low = 7 ∧ b.close = 7)
    ∧ ((compute_indicators c3Bars).getD (c3Bars.length - 1)
        defaultIndicatorRow).rsi14 = some 0 := by
  have hconst : ∀ b ∈ c3Bars, b.high = 7 ∧ b.low = 7 ∧ b.close = (7 : ℚ) := by
    intro b hb
    rw [List.eq_of_mem_replicate hb]
    exact ⟨rfl, rfl, rfl⟩
  have hlen : (200 : ℕ) ≤ c3Bars.length := by simp [c3Bars]
  exact ⟨hlen, hconst, (c3_flat_series c3Bars 7 1 1 hlen hconst).2.1⟩

/-- C2 amended: the ≥ 60-bar guard of the Momentum Backtester applies to
the *raw* input series, before indicator computation and the `dropna`.
With fewer than 60 raw bars it returns zero-trade stats; with 60 or more
raw bars the state machine is replayed over however many rows survive
the drop — even fewer than 60 — and its results are aggregated. -/
theorem c2_amended_guard_on_raw_length :
    (∀ df : List Bar, df.length < 60 →
      simple_backtest_momentum df = zeroStats)
    ∧ (∀ df : List Bar, 60 ≤ df.length →
      simple_backtest_momentum df
        = aggregateStats (replayResults
            ((compute_indicators df).filter indicatorDefined))) := by
  constructor
  · intro df h
    unfold simple_backtest_momentum
    rw [if_pos (Or.inr h)]
  · intro df h
    unfold simple_backtest_momentum
    rw [if_neg]
    rintro (he | hl)
    · rw [List.isEmpty_iff] at he
      simp [he] at h
    · omega

/-- Witness for the amended C2. -/
theorem c2_amended_witness :
    simple_backtest_momentum [] = zeroStats
    ∧ simple_backtest_momentum (List.replicate 60 defaultBar)
      = aggregateStats (replayResults
          ((compute_indicators (List.replicate 60 defaultBar)).filter
            indicatorDefined)) :=
  ⟨c2_amended_guard_on_raw_length.1 [] (by decide),
   c2_amended_guard_on_raw_length.2 (List.replicate 60 defaultBar) (by simp)⟩

/-- A 202-bar series: flat at 100, a small pump near the end
(101, 100, 102, 102) and a crash to 50 on the last bar.  After indicator
computation and the `dropna`, only the 3 rows at indices 199-201 remain,
yet the replay enters a trade at row 200 and exits at row 201. -/
def c2Bars : List Bar :=
  (List.replicate 197 (100 : ℚ) ++ [101, 100, 102, 102, 50]).map
    (fun q => ⟨q, q, q, q, 0⟩)

/-- Counterexample to C2 as stated: on `c2Bars` only 3 rows (fewer than
60) survive the indicator drop, yet the backtester does replay the state
machine and records one (losing) trade instead of returning zero-trade
stats. -/
theorem c2_counterexample :
    ((compute_indicators c2Bars).filter indicatorDefined).length = 3
    ∧ (3 : ℕ) < 60
    ∧ simple_backtest_momentum c2Bars
      = { trades := 1, winPct := some 0, avgR := some (-(51 / 100)),
          totalR := some (-(51 / 100)) } := by
  refine ⟨by with_unfolding_all rfl, by decide, by with_unfolding_all rfl⟩

/-- C7: the replay loop holds at most one position at a time and matches
entries to earliest exits.  Conjunct 1: from a flat state, a bar whose
predecessor satisfies the momentum condition enters one trade at the
current bar's open (a single `pos` slot — no pyramiding is possible).
Conjunct 2: from an in-trade state with entry `e`, the loop changes
nothing until the earliest remaining bar `j` satisfying the exit
condition, where it records exactly `(close_j − e)/e` and goes flat.
Conjunct 3: if no remaining bar satisfies the exit condition, the open
trade is never closed and never recorded (state and results unchanged). -/
theorem c7_single_trade_earliest_exit :
    (∀ (prev cur : IndicatorRow) (rest : List IndicatorRow) (res : List ℚ),
      momentumCond prev = true →
      btLoop prev (cur :: rest) ⟨none, res⟩
        = btLoop cur rest ⟨some cur.open_, res⟩)
    ∧ (∀ (l : List IndicatorRow) (j : ℕ) (prev : IndicatorRow) (e : ℚ)
        (res : List ℚ),
      j < l.length →
      (∀ k, k < j → exitCond (l.getD k defaultIndicatorRow) = false) →
      exitCond (l.getD j defaultIndicatorRow) = true →
      btLoop prev l ⟨some e, res⟩
        = btLoop (l.getD j defaultIndicatorRow) (l.drop (j + 1))
            ⟨none, res ++ [((l.getD j defaultIndicatorRow).close - e) / e]⟩)
    ∧ (∀ (l : List IndicatorRow) (prev : IndicatorRow) (e : ℚ)
        (res : List ℚ),
      (∀ r ∈ l, exitCond r = false) →
      btLoop prev l ⟨some e, res⟩ = ⟨some e, res⟩) := by
  refine ⟨?_, ?_, ?_⟩
  · intro prev cur rest res h
    simp [btLoop, h]
  · intro l
    induction l with
    | nil =>
      intro j prev e res hj
      simp at hj
    | cons cur tl ih =>
      intro j prev e res hj hpre hexit
      cases j with
      | zero =>
        rw [List.getD_cons_zero] at hexit
        simp only [btLoop, hexit, if_true, List.drop_succ_cons, List.drop_zero,
          List.getD_cons_zero]
      | succ j' =>
        have hcur : exitCond cur = false := by
          have := hpre 0 (Nat.succ_pos j')
          rwa [List.getD_cons_zero] at this
        simp only [btLoop, hcur, Bool.false_eq_true, if_false]
        rw [ih j' cur e res (by simpa using hj)
          (fun k hk => by
            have := hpre (k + 1) (by omega)
            rwa [List.getD_cons_succ] at this)
          (by rwa [List.getD_cons_succ] at hexit)]
        rw [List.getD_cons_succ, List.drop_succ_cons]
  · intro l
    induction l with
    | nil =>
      intro prev e res _
      rfl
    | cons cur tl ih =>
      intro prev e res h
      have hcur : exitCond cur = false := h cur (List.mem_cons_self cur tl)
      simp only [btLoop, hcur, Bool.false_eq_true, if_false]
      exact ih cur e res fun r hr => h r (List.mem_cons_of_mem cur hr)

/-- Concrete rows for the C7 witness: `rowUp` satisfies the momentum
(entry) condition, `rowHold` satisfies neither condition, `rowExit`
satisfies the exit condition. -/
def rowUp : IndicatorRow := ⟨4, 4, 4, 4, 0, some 3, some 2, some 1, some 60, none, none⟩

def rowHold : IndicatorRow := ⟨5, 5, 5, 5, 0, some 3, some 2, some 1, some 60, none, none⟩

def rowExit : IndicatorRow := ⟨1, 1, 1, 1, 0, some 3, some 2, some 1, some 60, none, none⟩

/-- Witness for C7 on concrete rows. -/
theorem c7_witness :
    momentumCond rowUp = true
    ∧ btLoop rowUp [rowHold] ⟨none, []⟩
      = btLoop rowHold [] ⟨some rowHold.open_, []⟩
    ∧ exitCond ([rowHold, rowExit].getD 1 defaultIndicatorRow) = true
    ∧ btLoop rowUp [rowHold, rowExit] ⟨some 4, []⟩
      = btLoop ([rowHold, rowExit].getD 1 defaultIndicatorRow)
          ([rowHold, rowExit].drop 2)
          ⟨none, [] ++ [(([rowHold, rowExit].getD 1 defaultIndicatorRow).close
            - 4) / 4]⟩
    ∧ btLoop rowUp [rowHold] ⟨some 4, []⟩ = ⟨some 4, []⟩ := by
  have hmom : momentumCond rowUp = true := by with_unfolding_all decide
  refine ⟨hmom, c7_single_trade_earliest_exit.1 rowUp rowHold [] [] hmom,
    by decide,
    c7_single_trade_earliest_exit.2.1 [rowHold, rowExit] 1 rowUp 4 []
      (by decide)
      (fun k hk => by
        have hk0 : k = 0 := by omega
        subst hk0
        decide)
      (by decide),
    c7_single_trade_earliest_exit.2.2 [rowHold] rowUp 4 []
      (fun r hr => by
        rw [List.mem_singleton] at hr
        subst hr
        decide)⟩
